import Mathlib

/-!
Verification of the Appwrite serverless function in
`src/functions/Pdf2Docx/main.py`, a PDF-to-DOCX conversion endpoint.

The handler is embedded shallowly: Python `bytes` and `str` values become
lists of natural numbers (byte values / code points), the request object
becomes an explicit structure, and every call into an external effectful
facility (the `base64` and `json` modules, `tempfile`, the converter
library, `os.unlink`) is mediated by an `Env` record of oracles that
fixes, for one run, the outcome of each such call.  The handler returns
the HTTP-style response together with the final on-disk state of the two
temporary files it may create, so that resource-cleanup properties are
statable.
-/

set_option autoImplicit false

namespace Pdf2Docx

/-- Python byte strings and text strings are modelled as lists of byte
values, respectively code points. -/
abbrev Bytes := List Nat

/-- Python str.lower applied to a header value, character by
character. -/
def pyLower (s : String) : String := String.mk (s.data.map Char.toLower)

/-- Containment of `needle` as a contiguous run starting at any suffix
of `hay`. -/
def subAt (needle : List Char) : List Char → Bool
  | [] => needle.isEmpty
  | c :: t => List.isPrefixOf needle (c :: t) || subAt needle t

/-- Python substring containment, `needle in hay`. -/
def hasSubstr (hay needle : String) : Bool :=
  subAt needle.toList hay.toList

/-- Possible runtime types of `context.req.body` as delivered by the
platform: raw bytes, a text string, or a pre-parsed JSON object (a dict
whose values we only need as strings, since the handler reads a single
base64 string field from it). -/
inductive PyBody where
  | bytes (b : Bytes)
  | str (s : Bytes)
  | dict (d : List (String × String))
  deriving DecidableEq

/-- The request object `context.req`.  An `Option.none` field models the
attribute being absent (`hasattr` returning `False`). -/
structure Request where
  method : String
  headers : List (String × String)
  bodyBinary : Option Bytes := none
  body : Option PyBody := none
  bodyText : Option Bytes := none
  deriving DecidableEq

/-- Response payloads: a JSON object (`context.res.json`) or raw data
passed to `context.res.send` (a string or bytes). -/
inductive RespData where
  | dict (fields : List (String × String))
  | str (s : String)
  | bytes (b : Bytes)
  deriving DecidableEq

/-- The response handed back to the platform. -/
structure Response where
  status : Nat
  headers : List (String × String)
  body : RespData
  deriving DecidableEq

/-- The literal `cors_headers` dict built inside `cors_response`. -/
def corsBase : List (String × String) :=
  [("Access-Control-Allow-Origin", "*"),
   ("Access-Control-Allow-Methods", "POST, OPTIONS"),
   ("Access-Control-Allow-Headers", "Content-Type, Authorization, X-Appwrite-Project")]

/-- Python `dict.update`: values of keys already present are overwritten
by `extra`, and keys new in `extra` are appended in order. -/
def dictUpdate (base extra : List (String × String)) : List (String × String) :=
  (base.map fun p => (p.1, (extra.lookup p.1).getD p.2)) ++
    extra.filter fun p => (base.lookup p.1).isNone

/-- The `cors_response` helper: merge the CORS headers with the
branch-specific ones (`if headers: cors_headers.update(headers)`; an
absent or empty dict leaves the CORS headers untouched), then dispatch on
the type of `data` (dict goes to `res.json`, anything else to
`res.send`). -/
def cors_response (data : RespData) (status : Nat)
    (headers : Option (List (String × String))) : Response :=
  let hs := match headers with
    | some h => if h.isEmpty then corsBase else dictUpdate corsBase h
    | none => corsBase
  { status := status, headers := hs, body := data }

/-- A JSON error response body with the given message, as built at each
error return site of the handler. -/
def errResp (msg : String) (status : Nat) : Response :=
  cors_response (.dict [("error", msg)]) status none

/-- Outcomes of the external, effectful collaborators for one request:
the `base64` and `json` library calls, the two `tempfile` creations, the
write of the PDF bytes, the converter invocation, the read-back of the
DOCX file, and the two `os.unlink` calls.  An `Except.error` or
`Option.some` message models the call raising an exception whose
`str(e)` is that message. -/
structure Env where
  b64decode : String → Except String Bytes
  jsonLoads : Bytes → Except String (List (String × String))
  mkTempPdf : Except String Unit
  writePdf : Option String
  mkTempDocx : Except String Unit
  convert : Option String
  readDocx : Except String Bytes
  unlinkPdf : Option String
  unlinkDocx : Option String

/-- Which of the two temporary files exist on disk when the handler
returns. -/
structure Disk where
  pdf : Bool
  docx : Bool
  deriving DecidableEq

/-- Python `headers.get(k, '')`. -/
def headerGet (hs : List (String × String)) (k : String) : String :=
  (hs.lookup k).getD ""

/-- The `content_type` local: `context.req.headers.get('content-type', '').lower()`. -/
def contentTypeOf (req : Request) : String :=
  pyLower (headerGet req.headers "content-type")

/-- Python `s.encode('latin-1')`: succeeds iff every code point is below
256, mapping each character to the single byte equal to its code
point. -/
def latin1Encode (s : Bytes) : Except String Bytes :=
  if s.all fun c => c < 256 then .ok s
  else .error "latin-1 codec cannot encode character"

/-- The `elif hasattr(context.req, 'body') and context.req.body:` arm of
the raw-PDF branch: bytes are used directly, a string is re-encoded with
latin-1, anything else (or a falsy body) leaves `pdf_data` unset. -/
def pdfBodyFallback (req : Request) : Except String (Option Bytes) :=
  match req.body with
  | some (.bytes b) => if b.isEmpty then .ok none else .ok (some b)
  | some (.str s) =>
    if s.isEmpty then .ok none
    else match latin1Encode s with
      | .error m => .error m
      | .ok b => .ok (some b)
  | some (.dict _) => .ok none
  | none => .ok none

/-- The raw-PDF branch: prefer a truthy `bodyBinary`, otherwise fall back
to `body`. -/
def pdfBranch (req : Request) : Except String (Option Bytes) :=
  match req.bodyBinary with
  | some b => if b.isEmpty then pdfBodyFallback req else .ok (some b)
  | none => pdfBodyFallback req

/-- The `data` local of the JSON branch: a pre-parsed dict body is used
as is; otherwise `body_text` is `bodyText` when that attribute exists and
`body` otherwise, and is fed to `json.loads`; with neither attribute
present the attribute access itself raises. -/
def jsonData (req : Request) (env : Env) : Except String (List (String × String)) :=
  match req.body, req.bodyText with
  | some (.dict d), _ => .ok d
  | _, some t => env.jsonLoads t
  | some (.bytes b), none => env.jsonLoads b
  | some (.str s), none => env.jsonLoads s
  | none, none => .error "AttributeError: body"

/-- Result of the JSON branch: either `pdf_data` was assigned the decoded
base64 bytes, or the `Missing pdf_data field` early return fires. -/
inductive JsonOut where
  | gotData (b : Bytes)
  | missing
  deriving DecidableEq

/-- The `application/json` branch: obtain the dict, then require and
base64-decode its `pdf_data` field. -/
def jsonBranch (req : Request) (env : Env) : Except String JsonOut :=
  match jsonData req env with
  | .error m => .error m
  | .ok data =>
    match data.lookup "pdf_data" with
    | some v =>
      match env.b64decode v with
      | .error m => .error m
      | .ok b => .ok (.gotData b)
    | none => .ok .missing

/-- The content-type dispatch inside the extraction `try`: the raw-PDF
check first, the JSON check only otherwise, any other content type
leaving `pdf_data` as `None`.  `Sum.inr` carries the early
`Missing pdf_data field` return. -/
def extractBranch (req : Request) (env : Env) :
    Except String (Sum (Option Bytes) Response) :=
  if hasSubstr (contentTypeOf req) "application/pdf" then
    match pdfBranch req with
    | .error m => .error m
    | .ok od => .ok (Sum.inl od)
  else if hasSubstr (contentTypeOf req) "application/json" then
    match jsonBranch req env with
    | .error m => .error m
    | .ok (.gotData b) => .ok (Sum.inl (some b))
    | .ok .missing => .ok (Sum.inr (errResp "Missing pdf_data field" 400))
  else .ok (Sum.inl none)

/-- The message of the `if not pdf_data` 400 response. -/
def noPdfMsg : String := "No PDF data found. Check content-type and data format."

/-- Outcome of the whole extraction phase: a truthy payload, or an early
error response (the `Missing pdf_data field` return, the
`if not pdf_data` check, or the `except data_error` handler turning any
extraction exception into a 400). -/
inductive ExtractOut where
  | ok (b : Bytes)
  | ret (r : Response)
  deriving DecidableEq

/-- The extraction phase of `main`, covering the inner
`try ... except Exception as data_error` block. -/
def extractPayload (req : Request) (env : Env) : ExtractOut :=
  match extractBranch req env with
  | .error m => .ret (errResp ("Failed to process PDF data: " ++ m) 400)
  | .ok (Sum.inr r) => .ret r
  | .ok (Sum.inl (some b)) =>
    if b.isEmpty then .ret (errResp noPdfMsg 400) else .ok b
  | .ok (Sum.inl none) => .ret (errResp noPdfMsg 400)

/-- The `except Exception as conversion_error` cleanup block:
`try: os.unlink(temp_pdf_path); os.unlink(temp_docx_path) except: pass`.
Unlinking a file that does not exist raises, so with the PDF temp file
already gone nothing further happens, and a failing first unlink
abandons the second. -/
def cleanupTemp (env : Env) (d : Disk) : Disk :=
  if d.pdf then
    match env.unlinkPdf with
    | some _ => d
    | none =>
      if d.docx then
        match env.unlinkDocx with
        | some _ => { pdf := false, docx := true }
        | none => { pdf := false, docx := false }
      else { pdf := false, docx := false }
  else d

/-- Outcome of the conversion phase: a returned response with the final
disk state, or an exception escaping to the outermost handler. -/
inductive ConvOut where
  | done (r : Response) (d : Disk)
  | thrown (m : String) (d : Disk)

/-- The branch-specific headers of the success response. -/
def successHeaders : List (String × String) :=
  [("Content-Type", "application/vnd.openxmlformats-officedocument.wordprocessingml.document"),
   ("Content-Disposition", "attachment; filename=\"converted.docx\""),
   ("Access-Control-Expose-Headers", "Content-Disposition")]

/-- The 200 response carrying the converted DOCX bytes. -/
def successResp (b : Bytes) : Response :=
  cors_response (.bytes b) 200 (some successHeaders)

/-- The `Conversion failed` error return of the inner handler, after the
best-effort cleanup. -/
def convFail (env : Env) (m : String) (d : Disk) : ConvOut :=
  .done (errResp ("Conversion failed: " ++ m) 500) (cleanupTemp env d)

/-- The conversion phase: create and fill the source temp file, create
the destination temp file (exceptions in these three steps escape to the
outermost handler, leaving whatever was already created on disk), then
inside the inner `try` convert, read the result back, and unlink both
temp files before returning the bytes; any exception in the inner `try`
goes through `convFail`. -/
def convertPhase (_pdfData : Bytes) (env : Env) : ConvOut :=
  match env.mkTempPdf with
  | .error m => .thrown m { pdf := false, docx := false }
  | .ok _ =>
    match env.writePdf with
    | some m => .thrown m { pdf := true, docx := false }
    | none =>
      match env.mkTempDocx with
      | .error m => .thrown m { pdf := true, docx := false }
      | .ok _ =>
        match env.convert with
        | some m => convFail env m { pdf := true, docx := true }
        | none =>
          match env.readDocx with
          | .error m => convFail env m { pdf := true, docx := true }
          | .ok docxContent =>
            match env.unlinkPdf with
            | some m => convFail env m { pdf := true, docx := true }
            | none =>
              match env.unlinkDocx with
              | some m => convFail env m { pdf := false, docx := true }
              | none =>
                .done (successResp docxContent) { pdf := false, docx := false }

/-- The CORS preflight response. -/
def optionsResp : Response :=
  cors_response (.str "") 200 (some [("Access-Control-Max-Age", "86400")])

/-- The handler `main`, as a function of the request and of the outcomes
of its external calls, returning the response together with the final
temp-file disk state.  The outermost `except` turns an escaping
exception into a 500 without touching the disk. -/
def main (req : Request) (env : Env) : Response × Disk :=
  if req.method = "OPTIONS" then
    (optionsResp, { pdf := false, docx := false })
  else if req.method ≠ "POST" then
    (errResp "Only POST requests allowed" 405, { pdf := false, docx := false })
  else
    match extractPayload req env with
    | .ret r => (r, { pdf := false, docx := false })
    | .ok pdfData =>
      match convertPhase pdfData env with
      | .done r d => (r, d)
      | .thrown m d =>
        (errResp ("Request processing failed: " ++ m) 500, d)

/-! ### Concrete fixtures used by counterexamples and witnesses -/

/-- An environment in which every external call succeeds. -/
def okEnv : Env :=
  { b64decode := fun _ => .ok [1]
  , jsonLoads := fun _ => .ok []
  , mkTempPdf := .ok ()
  , writePdf := none
  , mkTempDocx := .ok ()
  , convert := none
  , readDocx := .ok [80, 75]
  , unlinkPdf := none
  , unlinkDocx := none }

/-- A POST request carrying raw PDF bytes. -/
def pdfReq : Request :=
  { method := "POST"
  , headers := [("content-type", "application/pdf")]
  , bodyBinary := some [37, 80, 68, 70] }

/-- A POST request declaring a PDF content type but carrying no data. -/
def emptyPdfReq : Request :=
  { method := "POST"
  , headers := [("content-type", "application/pdf")]
  , bodyBinary := some [] }

/-! ### Helper lemmas -/

theorem main_of_options (req : Request) (env : Env) (h : req.method = "OPTIONS") :
    main req env = (optionsResp, { pdf := false, docx := false }) := by
  unfold main
  rw [if_pos h]

theorem main_of_bad_method (req : Request) (env : Env)
    (h1 : req.method ≠ "OPTIONS") (h2 : req.method ≠ "POST") :
    main req env =
      (errResp "Only POST requests allowed" 405, { pdf := false, docx := false }) := by
  unfold main
  rw [if_neg h1, if_pos h2]

theorem main_of_extract_ret (req : Request) (env : Env) (r : Response)
    (h : req.method = "POST") (hx : extractPayload req env = .ret r) :
    main req env = (r, { pdf := false, docx := false }) := by
  unfold main
  rw [if_neg (by rw [h]; decide), if_neg (by rw [h]; simp), hx]

theorem extractBranch_inr (req : Request) (env : Env) (r : Response)
    (h : extractBranch req env = .ok (Sum.inr r)) :
    r = errResp "Missing pdf_data field" 400 := by
  unfold extractBranch at h
  by_cases h1 : hasSubstr (contentTypeOf req) "application/pdf" = true
  · rw [if_pos h1] at h
    cases hp : pdfBranch req <;> rw [hp] at h <;> simp_all
  · rw [if_neg h1] at h
    by_cases h2 : hasSubstr (contentTypeOf req) "application/json" = true
    · rw [if_pos h2] at h
      cases hj : jsonBranch req env <;> rw [hj] at h
      · simp_all
      · next jo => rcases jo with b | _ <;> simp_all
    · rw [if_neg h2] at h
      simp_all

theorem extract_ret_shape (req : Request) (env : Env) (r : Response)
    (h : extractPayload req env = .ret r) : ∃ m, r = errResp m 400 := by
  unfold extractPayload at h
  split at h
  · exact ⟨_, (ExtractOut.ret.inj h).symm⟩
  · next r2 heq =>
    have h2 := extractBranch_inr req env r2 heq
    exact ⟨_, ((ExtractOut.ret.inj h).symm).trans h2⟩
  · split at h
    · exact ⟨_, (ExtractOut.ret.inj h).symm⟩
    · exact absurd h (by simp)
  · exact ⟨_, (ExtractOut.ret.inj h).symm⟩

theorem main_post_ok (req : Request) (env : Env) (b : Bytes)
    (h : req.method = "POST") (hx : extractPayload req env = .ok b) :
    main req env =
      match convertPhase b env with
      | .done r d => (r, d)
      | .thrown m d => (errResp ("Request processing failed: " ++ m) 500, d) := by
  unfold main
  rw [if_neg (by rw [h]; decide), if_neg (by rw [h]; simp), hx]

theorem conv_shape (b : Bytes) (env : Env) :
    (∃ m d, convertPhase b env = .thrown m d) ∨
    (∃ m d, convertPhase b env = .done (errResp ("Conversion failed: " ++ m) 500) d) ∨
    (∃ c d, convertPhase b env = .done (successResp c) d) := by
  unfold convertPhase
  cases hp : env.mkTempPdf
  · exact .inl ⟨_, _, rfl⟩
  · cases hw : env.writePdf
    · cases hd : env.mkTempDocx
      · exact .inl ⟨_, _, rfl⟩
      · cases hc : env.convert
        · cases hr : env.readDocx
          · exact .inr (.inl ⟨_, _, rfl⟩)
          · cases hup : env.unlinkPdf
            · cases hud : env.unlinkDocx
              · exact .inr (.inr ⟨_, _, rfl⟩)
              · exact .inr (.inl ⟨_, _, rfl⟩)
            · exact .inr (.inl ⟨_, _, rfl⟩)
        · exact .inr (.inl ⟨_, _, rfl⟩)
    · exact .inl ⟨_, _, rfl⟩

theorem main_shape (req : Request) (env : Env) :
    (main req env).1 = optionsResp ∨
    (∃ m s, (s = 400 ∨ s = 405 ∨ s = 500) ∧ (main req env).1 = errResp m s) ∨
    (∃ c, (main req env).1 = successResp c) := by
  by_cases h1 : req.method = "OPTIONS"
  · rw [main_of_options req env h1]
    exact .inl rfl
  · by_cases h2 : req.method = "POST"
    · cases hx : extractPayload req env
      · next b =>
        have hm := main_post_ok req env b h2 hx
        rcases conv_shape b env with ⟨m, d, hc⟩ | ⟨m, d, hc⟩ | ⟨c, d, hc⟩ <;> rw [hm, hc]
        · exact .inr (.inl ⟨_, 500, by simp, rfl⟩)
        · exact .inr (.inl ⟨_, 500, by simp, rfl⟩)
        · exact .inr (.inr ⟨c, rfl⟩)
      · next r =>
        rcases extract_ret_shape req env r hx with ⟨m, hmr⟩
        rw [main_of_extract_ret req env r h2 hx]
        exact .inr (.inl ⟨m, 400, by simp, by rw [hmr]⟩)
    · rw [main_of_bad_method req env h1 h2]
      exact .inr (.inl ⟨_, 405, by simp, rfl⟩)

/-- Predicate for a non-JSON response (one passed to `context.res.send`)
with status 200. -/
def isSuccessResp (r : Response) : Bool :=
  r.status == 200 && (match r.body with | .dict _ => false | _ => true)

/-- Predicate for a JSON error response: an error status together with a
JSON body carrying an `error` field. -/
def isJsonErrorResp (r : Response) : Bool :=
  (r.status == 400 || r.status == 405 || r.status == 500) &&
    (match r.body with
     | .dict fields => (fields.lookup "error").isSome
     | _ => false)

/-- Boolean check that a response carries the three CORS headers with
their canonical values. -/
def corsIntact (r : Response) : Bool :=
  (r.headers.lookup "Access-Control-Allow-Origin" == some "*") &&
  (r.headers.lookup "Access-Control-Allow-Methods" == some "POST, OPTIONS") &&
  (r.headers.lookup "Access-Control-Allow-Headers" ==
    some "Content-Type, Authorization, X-Appwrite-Project")

theorem lookup_filter_base_free (k : String) (base : List (String × String))
    (hk : base.lookup k = none) (extra : List (String × String)) :
    (extra.filter fun p => (base.lookup p.1).isNone).lookup k = extra.lookup k := by
  induction extra with
  | nil => rfl
  | cons p t ih =>
    rcases p with ⟨a, b⟩
    rw [List.filter_cons]
    by_cases hka : (k == a) = true
    · have hae := eq_of_beq hka
      subst hae
      rw [if_pos (by simp [hk])]
      rw [List.lookup_cons, List.lookup_cons, hka]
    · have hka' : (k == a) = false := by simpa using hka
      by_cases hp : ((base.lookup a).isNone : Bool) = true
      · rw [if_pos (by simpa using hp)]
        rw [List.lookup_cons, List.lookup_cons, hka', ih]
      · rw [if_neg (by simpa using hp)]
        rw [ih, List.lookup_cons, hka']

theorem lookup_map_updated (base extra : List (String × String)) (k : String) :
    (base.map fun p => (p.1, (extra.lookup p.1).getD p.2)).lookup k =
      match base.lookup k with
      | some w => some ((extra.lookup k).getD w)
      | none => none := by
  induction base with
  | nil => rfl
  | cons p t ih =>
    rcases p with ⟨a, b⟩
    rw [List.map_cons, List.lookup_cons, List.lookup_cons]
    by_cases hka : (k == a) = true
    · have hae := eq_of_beq hka
      subst hae
      rw [hka]
    · have hka' : (k == a) = false := by simpa using hka
      rw [hka', ih]

theorem dictUpdate_lookup_override (base extra : List (String × String)) (k v : String)
    (h : extra.lookup k = some v) :
    (dictUpdate base extra).lookup k = some v := by
  unfold dictUpdate
  rw [List.lookup_append, lookup_map_updated]
  cases hb : base.lookup k
  · simp only [Option.none_or]
    rw [lookup_filter_base_free k base hb extra, h]
  · rw [h]
    rfl

/-- A bare CORS preflight request. -/
def optionsReq : Request := { method := "OPTIONS", headers := [] }

/-- A request with a verb that is neither OPTIONS nor POST. -/
def getReq : Request := { method := "GET", headers := [] }

/-! ### Claim theorems -/

/-- C2: for every request and every outcome of the external calls, the
handler returns exactly one response, which is either a non-JSON
(binary/send) response with status 200 or a JSON error response with an
`error` field and status 400, 405 or 500 — never both shapes at once and
never neither; in particular no exception propagates, the outermost
boundary having converted any escaping exception into a status-500 JSON
error. -/
theorem claim_C2 (req : Request) (env : Env) :
    Bool.xor (isSuccessResp (main req env).1) (isJsonErrorResp (main req env).1) = true := by
  rcases main_shape req env with h | ⟨m, s, hs, h⟩ | ⟨c, h⟩
  · rw [h]
    rfl
  · rw [h]
    rcases hs with rfl | rfl | rfl <;> rfl
  · rw [h]
    rfl

/-- C4: every response of the handler, on every branch, carries the three
CORS headers with their canonical values (`*`, `POST, OPTIONS`, and the
allow-list covering Content-Type, Authorization and X-Appwrite-Project);
and the merge performed by `cors_response` lets a branch-specific header
override the CORS value whenever the names conflict. -/
theorem claim_C4 :
    (∀ (req : Request) (env : Env), corsIntact (main req env).1 = true) ∧
    (∀ (extra : List (String × String)) (k v : String), extra.lookup k = some v →
      (dictUpdate corsBase extra).lookup k = some v) := by
  constructor
  · intro req env
    rcases main_shape req env with h | ⟨m, s, _, h⟩ | ⟨c, h⟩ <;> rw [h] <;> rfl
  · intro extra k v h
    exact dictUpdate_lookup_override corsBase extra k v h

/-- Witness for C4 at a concrete request and a concrete conflicting
header. -/
theorem claim_C4_witness :
    corsIntact (main pdfReq okEnv).1 = true ∧
    (dictUpdate corsBase [("Access-Control-Allow-Origin", "https://example.test")]).lookup
      "Access-Control-Allow-Origin" = some "https://example.test" :=
  ⟨claim_C4.1 pdfReq okEnv,
   claim_C4.2 [("Access-Control-Allow-Origin", "https://example.test")]
     "Access-Control-Allow-Origin" "https://example.test" rfl⟩

/-- C6: an OPTIONS request is answered immediately with status 200, an
empty body, the CORS headers, and Access-Control-Max-Age 86400; the
response (and the untouched disk) is a constant, independent of the body
and of every external facility, so no further processing occurs. -/
theorem claim_C6 (req : Request) (env : Env) (h : req.method = "OPTIONS") :
    main req env = (optionsResp, { pdf := false, docx := false }) ∧
    optionsResp.status = 200 ∧
    optionsResp.body = .str "" ∧
    optionsResp.headers.lookup "Access-Control-Max-Age" = some "86400" ∧
    corsIntact optionsResp = true :=
  ⟨main_of_options req env h, rfl, rfl, rfl, rfl⟩

/-- Witness for C6 at a concrete OPTIONS request. -/
theorem claim_C6_witness :
    main optionsReq okEnv = (optionsResp, { pdf := false, docx := false }) ∧
    optionsResp.status = 200 ∧
    optionsResp.body = .str "" ∧
    optionsResp.headers.lookup "Access-Control-Max-Age" = some "86400" ∧
    corsIntact optionsResp = true :=
  claim_C6 optionsReq okEnv rfl

/-- C7: a request whose method is neither OPTIONS nor POST is answered
with a status-405 JSON error saying Only POST requests allowed; the
response is a constant independent of the body, the headers and every
external facility, so the decision precedes any body inspection. -/
theorem claim_C7 (req : Request) (env : Env)
    (h1 : req.method ≠ "OPTIONS") (h2 : req.method ≠ "POST") :
    main req env =
      (errResp "Only POST requests allowed" 405, { pdf := false, docx := false }) ∧
    (errResp "Only POST requests allowed" 405).status = 405 ∧
    (errResp "Only POST requests allowed" 405).body =
      .dict [("error", "Only POST requests allowed")] :=
  ⟨main_of_bad_method req env h1 h2, rfl, rfl⟩

/-- Witness for C7 at a concrete GET request. -/
theorem claim_C7_witness :
    main getReq okEnv =
      (errResp "Only POST requests allowed" 405, { pdf := false, docx := false }) ∧
    (errResp "Only POST requests allowed" 405).status = 405 ∧
    (errResp "Only POST requests allowed" 405).body =
      .dict [("error", "Only POST requests allowed")] :=
  claim_C7 getReq okEnv (by decide) (by decide)

/-- A POST request with a JSON content type and a pre-parsed empty JSON
object as body. -/
def jsonEmptyReq : Request :=
  { method := "POST"
  , headers := [("content-type", "application/json")]
  , body := some (.dict []) }

/-- A POST request whose PDF bytes arrive as a platform-delivered string
under a mixed-case content type. -/
def strPdfReq : Request :=
  { method := "POST"
  , headers := [("content-type", "Application/PDF; charset=binary")]
  , body := some (.str [37, 80, 68, 70]) }

/-- A POST request with no content-type header at all. -/
def noCtReq : Request :=
  { method := "POST", headers := [], bodyBinary := some [1, 2] }

/-- C5: every early return of the extraction phase is a status-400 JSON
error that the handler passes through unchanged with no temp file left;
an exception inside extraction is converted to a 400 whose message embeds
the exception description; and concretely a POST with content type
application/pdf and an empty body yields the 400 no-PDF-data error. -/
theorem claim_C5 :
    (∀ (req : Request) (env : Env) (r : Response), req.method = "POST" →
      extractPayload req env = .ret r →
      main req env = (r, { pdf := false, docx := false }) ∧
      r.status = 400 ∧ ∃ m, r.body = .dict [("error", m)]) ∧
    (∀ (req : Request) (env : Env) (m : String), req.method = "POST" →
      extractBranch req env = .error m →
      main req env = (errResp ("Failed to process PDF data: " ++ m) 400,
        { pdf := false, docx := false })) ∧
    main emptyPdfReq okEnv = (errResp noPdfMsg 400, { pdf := false, docx := false }) := by
  refine ⟨?_, ?_, rfl⟩
  · intro req env r hm hx
    rcases extract_ret_shape req env r hx with ⟨m, hme⟩
    refine ⟨main_of_extract_ret req env r hm hx, ?_, ⟨m, ?_⟩⟩
    · rw [hme]
      rfl
    · rw [hme]
      rfl
  · intro req env m hm hb
    have hx : extractPayload req env =
        .ret (errResp ("Failed to process PDF data: " ++ m) 400) := by
      unfold extractPayload
      rw [hb]
    exact main_of_extract_ret req env _ hm hx

/-- Witness for C5 at the concrete empty-body PDF POST. -/
theorem claim_C5_witness :
    main emptyPdfReq okEnv = (errResp noPdfMsg 400, { pdf := false, docx := false }) ∧
    (errResp noPdfMsg 400).status = 400 :=
  ⟨(claim_C5.1 emptyPdfReq okEnv (errResp noPdfMsg 400) rfl rfl).1,
   (claim_C5.1 emptyPdfReq okEnv (errResp noPdfMsg 400) rfl rfl).2.1⟩

/-- C8: a POST with a JSON content type whose body yields a mapping
without the pdf_data key is answered with the 400 Missing pdf_data field
error; with the key present, its value is passed to the base64 decoder
and the decoded bytes become the payload. -/
theorem claim_C8 :
    ∀ (req : Request) (env : Env) (d : List (String × String)),
      req.method = "POST" →
      hasSubstr (contentTypeOf req) "application/pdf" = false →
      hasSubstr (contentTypeOf req) "application/json" = true →
      jsonData req env = .ok d →
      ((d.lookup "pdf_data" = none →
        main req env =
          (errResp "Missing pdf_data field" 400, { pdf := false, docx := false })) ∧
       (∀ (v : String) (b : Bytes), d.lookup "pdf_data" = some v →
        env.b64decode v = .ok b → b ≠ [] →
        extractPayload req env = .ok b)) := by
  intro req env d hm hp hj hd
  constructor
  · intro hnone
    have hjb : jsonBranch req env = .ok .missing := by
      unfold jsonBranch
      rw [hd]
      simp [hnone]
    have hb : extractBranch req env =
        .ok (Sum.inr (errResp "Missing pdf_data field" 400)) := by
      unfold extractBranch
      rw [hp, hj, hjb]
      rfl
    have hx : extractPayload req env = .ret (errResp "Missing pdf_data field" 400) := by
      unfold extractPayload
      rw [hb]
    exact main_of_extract_ret req env _ hm hx
  · intro v b hv hdec hne
    have hse : b.isEmpty = false := by
      cases b
      · exact absurd rfl hne
      · rfl
    have hjb : jsonBranch req env = .ok (.gotData b) := by
      unfold jsonBranch
      rw [hd]
      simp [hv, hdec]
    have hb : extractBranch req env = .ok (Sum.inl (some b)) := by
      unfold extractBranch
      rw [hp, hj, hjb]
      rfl
    unfold extractPayload
    rw [hb]
    simp [hse]

/-- Witness for C8 at the concrete empty-object JSON POST. -/
theorem claim_C8_witness :
    main jsonEmptyReq okEnv =
      (errResp "Missing pdf_data field" 400, { pdf := false, docx := false }) :=
  (claim_C8 jsonEmptyReq okEnv [] rfl (by decide) (by decide) rfl).1 rfl

/-- C9: the latin-1 re-encoding of the raw-PDF branch maps each character
to the byte equal to its code point, so it is lossless on byte values;
consequently, whenever the platform delivers a nonempty byte sequence as
its one-character-per-byte string, the extracted payload is exactly that
byte sequence. -/
theorem claim_C9 :
    (∀ s : Bytes, (∀ c ∈ s, c < 256) → latin1Encode s = .ok s) ∧
    (∀ (req : Request) (env : Env) (b : Bytes),
      req.method = "POST" →
      hasSubstr (contentTypeOf req) "application/pdf" = true →
      req.bodyBinary = none →
      req.body = some (.str b) →
      (∀ c ∈ b, c < 256) → b ≠ [] →
      extractPayload req env = .ok b) := by
  have henc : ∀ s : Bytes, (∀ c ∈ s, c < 256) → latin1Encode s = .ok s := by
    intro s h
    unfold latin1Encode
    rw [if_pos (by simp only [List.all_eq_true, decide_eq_true_eq]; exact h)]
  refine ⟨henc, ?_⟩
  intro req env b hm hct hbb hbody hlt hne
  have hse : b.isEmpty = false := by
    cases b
    · exact absurd rfl hne
    · rfl
  have hfb : pdfBodyFallback req = .ok (some b) := by
    unfold pdfBodyFallback
    rw [hbody]
    simp [hse, henc b hlt]
  have hpb : pdfBranch req = .ok (some b) := by
    unfold pdfBranch
    rw [hbb]
    exact hfb
  have hb : extractBranch req env = .ok (Sum.inl (some b)) := by
    unfold extractBranch
    rw [hct, hpb]
    rfl
  unfold extractPayload
  rw [hb]
  simp [hse]

/-- Witness for C9 at a concrete string-delivered PDF body. -/
theorem claim_C9_witness :
    latin1Encode [37, 80, 68, 70] = .ok [37, 80, 68, 70] ∧
    extractPayload strPdfReq okEnv = .ok [37, 80, 68, 70] :=
  ⟨claim_C9.1 [37, 80, 68, 70] (by decide),
   claim_C9.2 strPdfReq okEnv [37, 80, 68, 70] rfl (by decide) rfl rfl
     (by decide) (by decide)⟩

/-- C10: content-type dispatch is by case-insensitive substring
containment with the raw-PDF check first: any content type whose
lowercasing contains application/pdf is handled as raw binary regardless
of parameters or other text; when neither substring occurs (including an
absent header, which defaults to the empty string) no payload is
produced and the handler returns the 400 no-PDF-data error. -/
theorem claim_C10 :
    (∀ (req : Request) (env : Env) (b : Bytes),
      req.method = "POST" → req.bodyBinary = some b → b ≠ [] →
      hasSubstr (contentTypeOf req) "application/pdf" = true →
      extractPayload req env = .ok b) ∧
    (∀ (req : Request) (env : Env),
      req.method = "POST" →
      hasSubstr (contentTypeOf req) "application/pdf" = false →
      hasSubstr (contentTypeOf req) "application/json" = false →
      main req env = (errResp noPdfMsg 400, { pdf := false, docx := false })) ∧
    (∀ (req : Request) (env : Env),
      req.method = "POST" →
      req.headers.lookup "content-type" = none →
      main req env = (errResp noPdfMsg 400, { pdf := false, docx := false })) := by
  have part2 : ∀ (req : Request) (env : Env),
      req.method = "POST" →
      hasSubstr (contentTypeOf req) "application/pdf" = false →
      hasSubstr (contentTypeOf req) "application/json" = false →
      main req env = (errResp noPdfMsg 400, { pdf := false, docx := false }) := by
    intro req env hm hp hj
    have hb : extractBranch req env = .ok (Sum.inl none) := by
      unfold extractBranch
      rw [hp, hj]
      rfl
    have hx : extractPayload req env = .ret (errResp noPdfMsg 400) := by
      unfold extractPayload
      rw [hb]
    exact main_of_extract_ret req env _ hm hx
  refine ⟨?_, part2, ?_⟩
  · intro req env b hm hbb hne hct
    have hse : b.isEmpty = false := by
      cases b
      · exact absurd rfl hne
      · rfl
    have hpb : pdfBranch req = .ok (some b) := by
      unfold pdfBranch
      rw [hbb]
      simp [hse]
    have hb : extractBranch req env = .ok (Sum.inl (some b)) := by
      unfold extractBranch
      rw [hct, hpb]
      rfl
    unfold extractPayload
    rw [hb]
    simp [hse]
  · intro req env hm hdr
    have hctv : contentTypeOf req = "" := by
      unfold contentTypeOf headerGet
      rw [hdr]
      rfl
    exact part2 req env hm (by rw [hctv]; rfl) (by rw [hctv]; rfl)

/-- Witness for C10: the raw-PDF branch fires on the canonical header,
and an absent content-type header yields the 400 no-PDF-data error. -/
theorem claim_C10_witness :
    extractPayload pdfReq okEnv = .ok [37, 80, 68, 70] ∧
    main noCtReq okEnv = (errResp noPdfMsg 400, { pdf := false, docx := false }) :=
  ⟨claim_C10.1 pdfReq okEnv [37, 80, 68, 70] rfl rfl (by decide) (by decide),
   claim_C10.2.2 noCtReq okEnv rfl rfl⟩

/-- An environment in which creating the destination temp file fails
after the source temp file has been created and written. -/
def diskFullEnv : Env := { okEnv with mkTempDocx := .error "No space left on device" }

/-- An environment in which the converter raises and the first unlink of
the cleanup block also fails, while deleting the destination file would
succeed. -/
def convCrashEnv : Env :=
  { okEnv with convert := some "engine crash", unlinkPdf := some "Permission denied" }

/-- An environment in which writing the PDF bytes to the source temp
file raises. -/
def writeFailEnv : Env := { okEnv with writePdf := some "disk write failure" }

/-- Counterexample to C1 as stated: when creating the destination temp
file raises, the handler returns (a 500 error), yet the already-created
source temp file remains on disk even though unlinking it would have
succeeded. -/
theorem claim_C1_cex :
    (main pdfReq diskFullEnv).1.status = 500 ∧
    (main pdfReq diskFullEnv).2.pdf = true ∧
    diskFullEnv.unlinkPdf = none :=
  ⟨rfl, rfl, rfl⟩

/-- C1 (amended): both temporary files are gone when the handler returns
provided the operating-system calls themselves cooperate — the write and
the destination-file creation do not raise and both unlinks succeed; on
the remaining paths (write or destination-creation failure, or a failing
first unlink during cleanup) a temporary file can survive the request. -/
theorem claim_C1 (req : Request) (env : Env)
    (hw : env.writePdf = none) (hd : env.mkTempDocx = .ok ())
    (hup : env.unlinkPdf = none) (hud : env.unlinkDocx = none) :
    (main req env).2 = { pdf := false, docx := false } := by
  by_cases h1 : req.method = "OPTIONS"
  · rw [main_of_options req env h1]
  · by_cases h2 : req.method = "POST"
    · cases hx : extractPayload req env
      · next b =>
        rw [main_post_ok req env b h2 hx]
        unfold convertPhase
        cases hp : env.mkTempPdf
        · rfl
        · rw [hw, hd]
          cases hc : env.convert
          · cases hr : env.readDocx
            · unfold convFail cleanupTemp
              rw [hup, hud]
              rfl
            · rw [hup, hud]
          · unfold convFail cleanupTemp
            rw [hup, hud]
            rfl
      · next r =>
        rw [main_of_extract_ret req env r h2 hx]
    · rw [main_of_bad_method req env h1 h2]

/-- Witness for C1 (amended) at a concrete request with a cooperative
environment. -/
theorem claim_C1_witness :
    okEnv.writePdf = none ∧ okEnv.mkTempDocx = .ok () ∧
    okEnv.unlinkPdf = none ∧ okEnv.unlinkDocx = none ∧
    (main pdfReq okEnv).2 = { pdf := false, docx := false } :=
  ⟨rfl, rfl, rfl, rfl, claim_C1 pdfReq okEnv rfl rfl rfl rfl⟩

/-- Counterexample to C3 as stated: (a) when conversion raises and the
first unlink of the cleanup fails, the destination temp file is never
attempted (it stays on disk although unlinking it would succeed), so the
deletions are not individually suppressed; (b) when writing the source
temp file raises, the outer handler answers 500 without attempting any
deletion, and the source temp file stays on disk. -/
theorem claim_C3_cex :
    (main pdfReq convCrashEnv).1 = errResp "Conversion failed: engine crash" 500 ∧
    (main pdfReq convCrashEnv).2 = { pdf := true, docx := true } ∧
    convCrashEnv.unlinkDocx = none ∧
    (main pdfReq writeFailEnv).1 =
      errResp "Request processing failed: disk write failure" 500 ∧
    (main pdfReq writeFailEnv).2 = { pdf := true, docx := false } ∧
    writeFailEnv.unlinkPdf = none :=
  ⟨rfl, rfl, rfl, rfl, rfl, rfl⟩

/-- C3 (amended): an exception raised during conversion or during
reading the destination file leads to one best-effort cleanup block that
unlinks the source file and then the destination file but abandons
silently at the first failing deletion, followed by a status-500 JSON
error embedding the exception description; an exception while writing
the source temp file instead escapes to the outer handler, which returns
a status-500 JSON error embedding the description without attempting any
deletion. -/
theorem claim_C3 (req : Request) (env : Env) (b : Bytes) (m : String)
    (hm : req.method = "POST") (hx : extractPayload req env = .ok b)
    (hp : env.mkTempPdf = .ok ()) :
    (env.writePdf = none → env.mkTempDocx = .ok () → env.convert = some m →
      main req env = (errResp ("Conversion failed: " ++ m) 500,
        cleanupTemp env { pdf := true, docx := true })) ∧
    (env.writePdf = none → env.mkTempDocx = .ok () → env.convert = none →
      env.readDocx = .error m →
      main req env = (errResp ("Conversion failed: " ++ m) 500,
        cleanupTemp env { pdf := true, docx := true })) ∧
    (env.writePdf = some m →
      main req env = (errResp ("Request processing failed: " ++ m) 500,
        { pdf := true, docx := false })) ∧
    (env.unlinkPdf = none → env.unlinkDocx = none →
      cleanupTemp env { pdf := true, docx := true } = { pdf := false, docx := false }) ∧
    (∀ m2 : String, env.unlinkPdf = some m2 →
      cleanupTemp env { pdf := true, docx := true } = { pdf := true, docx := true }) := by
  refine ⟨?_, ?_, ?_, ?_, ?_⟩
  · intro hw hd hc
    rw [main_post_ok req env b hm hx]
    unfold convertPhase
    rw [hp, hw, hd, hc]
    rfl
  · intro hw hd hc hr
    rw [main_post_ok req env b hm hx]
    unfold convertPhase
    rw [hp, hw, hd, hc, hr]
    rfl
  · intro hw
    rw [main_post_ok req env b hm hx]
    unfold convertPhase
    rw [hp, hw]
  · intro hup hud
    unfold cleanupTemp
    rw [hup, hud]
    rfl
  · intro m2 hup
    unfold cleanupTemp
    rw [hup]
    rfl

/-- Witness for C3 (amended) at the concrete crashing-converter
environment. -/
theorem claim_C3_witness :
    main pdfReq convCrashEnv =
      (errResp "Conversion failed: engine crash" 500,
        cleanupTemp convCrashEnv { pdf := true, docx := true }) :=
  (claim_C3 pdfReq convCrashEnv [37, 80, 68, 70] "engine crash" rfl rfl rfl).1 rfl rfl rfl

end Pdf2Docx
